import Mathlib

/-!
Verification of the call-orchestration core of a real-time voice agent.

This file is a shallow embedding of the components of
`src/core/call_handler.py` and `src/core/stt_module.py` that the verified
properties are about: the RTP payload extractor, the energy-based voice
activity detector, the response stream chunker, the STT utterance queue,
the playback lifecycle bookkeeping, the streaming NLP response handler and
the conversation loop.  Bytes are modelled as `Nat` (each value `< 256`),
Python byte strings as `List Nat`, Python `str` as Lean `String`, and the
Python float `rms_threshold` as a rational number.  Every embedded
function is total: the Python originals guard every indexing operation,
so the embedding uses the same guards and never needs partiality.
-/

/-! ### Python primitives

Helpers mirroring the exact semantics of the Python operations used by the
source: negative-stop slicing, `str.rstrip`/`str.strip`, `str.endswith`.
-/

/-- Python `xs[:-k]`.  For `k = 0` the stop index is `-0 = 0`, so the slice is
empty; for `k > 0` it keeps the first `len - k` elements.  This distinction is
load-bearing for the RTP padding logic. -/
def pySliceDropLast {α : Type} (xs : List α) (k : Nat) : List α :=
  if k = 0 then [] else xs.take (xs.length - k)

/-- The ASCII whitespace characters stripped by Python `str.strip()` /
`str.rstrip()` (space, tab, newline, carriage return, vertical tab, form
feed). -/
def pyIsSpace (c : Char) : Bool :=
  c = ' ' || c = '\t' || c = '\n' || c = '\r' || c = '\x0b' || c = '\x0c'

/-- Python `str.rstrip()`: drop trailing whitespace. -/
def pyRstrip (s : String) : String :=
  ⟨(s.data.reverse.dropWhile pyIsSpace).reverse⟩

/-- Python `str.strip()`: drop leading and trailing whitespace. -/
def pyStrip (s : String) : String :=
  ⟨((s.data.dropWhile pyIsSpace).reverse.dropWhile pyIsSpace).reverse⟩

/-- Python `s.endswith(p)` for a one-character string `p`: true iff `s` is
nonempty and its last character is `p`. -/
def pyEndsWithChar (s : String) (c : Char) : Bool :=
  s.data.getLast? == some c

/-! ### RTP payload extraction

Embedding of `RTPAudioForwarder._extract_payload`
(`src/core/call_handler.py:109-137`).  The header-length computation
(lines 111-129: the length/version guards, the CSRC count, and the
optional extension header) is factored into `rtpHeaderLen`, returning
`none` exactly where the source returns `b""` before reaching the payload
slice; `extract_payload` then performs the payload slice and padding trim
of lines 130-137. -/

/-- Header-length computation of `_extract_payload` (lines 111-129).
`none` means the packet is malformed (too short, wrong version, or
truncated header/extension) and the source returns `b""`. -/
def rtpHeaderLen (packet : List Nat) : Option Nat :=
  if packet.length < 12 then none
  else
    let first_byte := packet.headD 0
    -- version := first_byte >> 6
    if first_byte / 64 ≠ 2 then none
    else
      let csrc_count := first_byte % 16          -- first_byte & 0x0F
      let extension_flag := first_byte / 16 % 2  -- (first_byte >> 4) & 0x01
      let header_len := 12 + csrc_count * 4
      if packet.length < header_len then none
      else if extension_flag = 1 then
        if packet.length < header_len + 4 then none
        else
          -- struct.unpack_from('!H', packet, header_len + 2): big-endian u16;
          -- the guard above keeps both indices in bounds, so getD is exact.
          let ext_length := packet.getD (header_len + 2) 0 * 256 +
            packet.getD (header_len + 3) 0
          let hl := header_len + 4 + ext_length * 4
          if packet.length < hl then none else some hl
      else some header_len

/-- `RTPAudioForwarder._extract_payload` (lines 109-137): strip the RTP
header and, when the padding flag is set, trim the trailing padding. -/
def extract_payload (packet : List Nat) : List Nat :=
  match rtpHeaderLen packet with
  | none => []
  | some hl =>
    let padding_flag := packet.headD 0 / 32 % 2  -- (first_byte >> 5) & 0x01
    let payload := packet.drop hl
    if padding_flag = 1 then
      if payload = [] then payload
      else
        let padding := payload.getLastD 0
        if padding < payload.length then pySliceDropLast payload padding
        else []
    else payload

/-! ### Energy VAD

Embedding of `EnergyVAD` (`src/core/call_handler.py:33-71`).  A chunk of
bytes is decoded as little-endian signed 16-bit samples
(`struct.iter_unpack('<h', chunk)`).  The source compares
`sqrt(total_sq / count) >= rms_threshold`; for a threshold `θ ≤ 0` this
always holds, and for `θ > 0` it is equivalent to
`θ² * count ≤ total_sq`, which is how `chunkClass` states it to stay in
decidable rational arithmetic. -/

/-- Decode one `'<h'` value: a 16-bit unsigned word reinterpreted as a
signed 16-bit integer. -/
def toSigned16 (v : Nat) : Int :=
  if v < 32768 then (v : Int) else (v : Int) - 65536

/-- `struct.iter_unpack('<h', chunk)`: consecutive little-endian 16-bit
signed samples (a trailing lone byte yields no sample; the source has
already truncated odd-length chunks when this runs). -/
def leSamples : List Nat → List Int
  | b0 :: b1 :: rest => toSigned16 (b0 + 256 * b1) :: leSamples rest
  | _ => []

/-- Frame classification of `EnergyVAD.add_chunk`, lines 45-57: the
length guards, odd-byte truncation, sample decoding and RMS threshold
comparison.  `none` means the chunk is rejected (`return False` with no
state change); `some a` gives the above/below-threshold verdict `a`.
The source compares `sqrt(total_sq / count) >= θ`.  For `θ ≤ 0`
(equivalently `θ.num ≤ 0`) this always holds; for `θ > 0` it is
equivalent to `θ² · count ≤ total_sq`, i.e.
`θ.num² · count ≤ total_sq · θ.den²`, which keeps the comparison in
integer arithmetic. -/
def chunkClass (θ : ℚ) (chunk : List Nat) : Option Bool :=
  if chunk.length < 2 then none  -- `if not chunk or len(chunk) < 2`
  else
    let c := if chunk.length % 2 = 1 then pySliceDropLast chunk 1 else chunk
    let samples := leSamples c
    let total_sq : Int := (samples.map (fun s => s * s)).sum
    let count := samples.length
    if count = 0 then none  -- `if not count`
    else
      -- `rms = sqrt(total_sq / count); rms >= rms_threshold`
      some (decide (θ.num ≤ 0) ||
        decide (θ.num * θ.num * (count : Int) ≤ total_sq * ((θ.den : Int) * (θ.den : Int))))

/-- Rolling state of `EnergyVAD` (lines 36-42). -/
structure EnergyVAD where
  rms_threshold : ℚ
  activation_frames : Nat
  release_frames : Nat
  active_frames : Nat
  silence_frames : Nat
  triggered : Bool
deriving Repr, DecidableEq

/-- `EnergyVAD.__init__` (lines 36-42): counters start at
`active_frames = 0`, `silence_frames = release_frames`,
`triggered = False`. -/
def EnergyVAD.init (rms_threshold : ℚ) (activation_frames release_frames : Nat) :
    EnergyVAD :=
  { rms_threshold, activation_frames, release_frames,
    active_frames := 0, silence_frames := release_frames, triggered := false }

/-- Counter/flag update of `EnergyVAD.add_chunk`, lines 57-71, applied to
one classified frame.  On a below-threshold frame the active counter is
decremented (floored at zero: `if self.active_frames > 0`), which is
exactly `Nat` subtraction. -/
def frameStep (vad : EnergyVAD) (above : Bool) : EnergyVAD × Bool :=
  let vad1 :=
    if above then
      { vad with active_frames := vad.active_frames + 1, silence_frames := 0 }
    else
      { vad with silence_frames := vad.silence_frames + 1,
                 active_frames := vad.active_frames - 1 }
  if vad1.triggered = false ∧ vad1.activation_frames ≤ vad1.active_frames then
    ({ vad1 with triggered := true, silence_frames := 0 }, true)
  else if vad1.triggered = true ∧ vad1.release_frames ≤ vad1.silence_frames then
    ({ vad1 with triggered := false, active_frames := 0 }, false)
  else (vad1, false)

/-- `EnergyVAD.add_chunk` (lines 44-71): classify the chunk, update the
hysteresis counters, and return the new state together with the one-shot
activation edge. -/
def add_chunk (vad : EnergyVAD) (chunk : List Nat) : EnergyVAD × Bool :=
  match chunkClass vad.rms_threshold chunk with
  | none => (vad, false)
  | some above => frameStep vad above

/-- Feed a sequence of chunks through the VAD, keeping the final state. -/
def runChunks (vad : EnergyVAD) (chunks : List (List Nat)) : EnergyVAD :=
  chunks.foldl (fun s c => (add_chunk s c).1) vad

/-! ### Response stream chunker

Embedding of `CallHandler._should_flush_stream_chunk`
(`src/core/call_handler.py:281-291`) over the relevant `CallHandler`
configuration fields (lines 161-163). -/

/-- The chunker configuration read from the environment in
`CallHandler.__init__` (lines 161-163). -/
structure ChunkerCfg where
  stream_chunk_min_chars : Nat
  stream_chunk_max_chars : Nat
  stream_flush_punct : String
deriving Repr, DecidableEq

/-- `CallHandler._should_flush_stream_chunk` (lines 281-291). -/
def should_flush_stream_chunk (cfg : ChunkerCfg) (text : String) (is_final : Bool) :
    Bool :=
  if text = "" then false  -- `if not text`
  else
    let stripped := pyRstrip text
    if is_final then true
    else if cfg.stream_flush_punct.data.any (fun p => pyEndsWithChar stripped p) then
      true
    else if cfg.stream_chunk_max_chars ≤ stripped.length then true
    else decide (cfg.stream_chunk_min_chars ≤ stripped.length)

/-! ### STT utterance queue

Embedding of `STTModule.get_next_utterance`
(`src/core/stt_module.py:82-97`).  The per-call result queue is modelled
as the list of result dictionaries the background handler enqueues, in
order. -/

/-- One STT result dictionary: the `transcript` and `is_final` keys
(missing keys read as falsy: empty transcript / `false`), plus the
optional `type` key carried by the `{"type": "stream_end"}` sentinel. -/
structure STTResult where
  transcript : String
  is_final : Bool
  ty : Option String
deriving Repr, DecidableEq

/-- `STTModule.get_next_utterance` (lines 82-97), as a function of the
sequence of queued results.  `some (some t)` models returning transcript
`t`; `some none` models returning `None` at a `stream_end` sentinel;
`none` means the queue was exhausted with the coroutine still suspended
on `result_queue.get()`. -/
def get_next_utterance : List STTResult → Option (Option String)
  | [] => none
  | r :: rest =>
    -- `if result.get("is_final") and result.get("transcript")`
    if r.is_final = true ∧ r.transcript ≠ "" then some (some r.transcript)
    -- `if result.get("type") == "stream_end"`
    else if r.ty = some "stream_end" then some none
    else get_next_utterance rest

/-! ### Playback lifecycle manager

Embedding of the `CallHandler` playback bookkeeping: the
`_active_playbacks` owner map and `_playback_monitors` map (lines
155-156) and `_stop_active_playback` (lines 442-456).  Monitor tasks are
identified by the playback id they watch; ARI commands are recorded as a
trace of actions. -/

/-- Commands issued to the ARI client / task layer by the playback
manager. -/
inductive AriAction where
  | cancelMonitor (playbackId : String)
  | stopPlayback (playbackId : String)
deriving Repr, DecidableEq

/-- The playback-tracking state: `_active_playbacks` (a `defaultdict`
owner → set of playback ids, keys present only while their set is
nonempty in reachable states) and `_playback_monitors` (the playback ids
with a live monitor task). -/
structure PlaybackState where
  active_playbacks : List (String × List String)
  playback_monitors : List String
deriving Repr, DecidableEq

/-- `self._active_playbacks.pop(owner_id, set())`: the value removed, or
the empty default when the key is absent. -/
def lookupOwner (m : List (String × List String)) (owner : String) : List String :=
  ((m.find? (fun p => p.1 = owner)).map Prod.snd).getD []

/-- The map after `pop(owner_id, set())`: every binding for `owner` is
gone (keys are unique in reachable states), other bindings unchanged. -/
def popOwner (m : List (String × List String)) (owner : String) :
    List (String × List String) :=
  m.filter (fun p => p.1 ≠ owner)

/-- `CallHandler._stop_active_playback` (lines 442-456): pop the owner's
playback ids; if there are none, return at once; otherwise, for each id,
pop and cancel its monitor (when present) and issue a `stop` command
(errors from `stop` are swallowed, so the command is always issued). -/
def stop_active_playback (st : PlaybackState) (owner : String) :
    PlaybackState × List AriAction :=
  let playback_ids := lookupOwner st.active_playbacks owner
  let st1 : PlaybackState :=
    { st with active_playbacks := popOwner st.active_playbacks owner }
  if playback_ids = [] then (st1, [])
  else
    playback_ids.foldl
      (fun acc pid =>
        let hasMon := acc.1.playback_monitors.contains pid
        let s : PlaybackState :=
          { acc.1 with playback_monitors := acc.1.playback_monitors.filter (· ≠ pid) }
        (s, acc.2 ++ (if hasMon then [AriAction.cancelMonitor pid] else []) ++
          [AriAction.stopPlayback pid]))
      (st1, [])


/-! ### Streaming NLP response handler

Embedding of `CallHandler._stream_nlp_response`
(`src/core/call_handler.py:301-390`) and its fixed fallback message
(lines 24-27), together with `guardrails_utils.sanitize_response`
(`src/utils/guardrails.py`).  External collaborators are parameters: the
safety policy `is_response_safe` (spec treats it as an external
collaborator), the NLP stream-end metadata `pop_last_stream_result`, the
emotion analyzer, and the monotonic clock (only the measured latency
value is abstracted; which events set `first_chunk_time` is modelled
exactly).  The handler's observable effects — `_stop_active_playback`
and `_play_tts_response` calls — are recorded as an ordered trace. -/

/-- The fixed `GUARDRAIL_FALLBACK_MESSAGE` (default value, lines 24-27). -/
def GUARDRAIL_FALLBACK_MESSAGE : String :=
  "Xin loi, toi khong the ho tro noi dung nay. Toi se chuyen ban toi nhan vien ho tro."

/-- `guardrails_utils.sanitize_response`: currently just `text.strip()`. -/
def sanitize_response (text : String) : String := pyStrip text

/-- The turn metadata dictionary built by `_stream_nlp_response`; each
field is `none` while its key is absent.  `latency_ms` can be present
with value `None`, hence the nested option. -/
structure NLPMeta where
  response_text : Option String
  intent : Option String
  emotion : Option String
  guardrail_violations : Option (List String)
  latency_ms : Option (Option Int)
deriving Repr, DecidableEq

/-- The empty metadata dictionary `{}`. -/
def NLPMeta.empty : NLPMeta := ⟨none, none, none, none, none⟩

/-- Python `dict.update`: keys present in `p` overwrite those of `m`. -/
def NLPMeta.update (m p : NLPMeta) : NLPMeta :=
  { response_text := (p.response_text).orElse (fun _ => m.response_text),
    intent := (p.intent).orElse (fun _ => m.intent),
    emotion := (p.emotion).orElse (fun _ => m.emotion),
    guardrail_violations := (p.guardrail_violations).orElse
      (fun _ => m.guardrail_violations),
    latency_ms := (p.latency_ms).orElse (fun _ => m.latency_ms) }

/-- `meta = self.nlp.pop_last_stream_result(); if meta: metadata.update(meta)`
(lines 348-350): `none` models an absent/empty result dict. -/
def NLPMeta.updateIfSome (m : NLPMeta) (p : Option NLPMeta) : NLPMeta :=
  match p with
  | none => m
  | some q => m.update q

/-- Calls the `CallHandler` makes while streaming a response: a
`_stop_active_playback(call_id, reason)` call or a
`_play_tts_response(channel_id, text, owner_id)` call. -/
inductive CallAction where
  | stopActivePlayback (owner : String) (reason : String)
  | playTTS (channelId : String) (text : String) (owner : String)
deriving Repr, DecidableEq

/-- External collaborators of `_stream_nlp_response`: the safety policy
(returning `(is_safe, violations)`), the NLP stream-end metadata, the
emotion analyzer, the abstracted latency measurement, and the chunker
configuration of this `CallHandler`. -/
structure StreamEnv where
  is_response_safe : String → Bool × List String
  pop_last_stream_result : Option NLPMeta
  analyze_emotion : String → String
  latency_value : Int
  cfg : ChunkerCfg

/-- Mutable locals of the token loop in `_stream_nlp_response` (lines
309-313): `chunks`, `pending_chunk`, `guardrail_violations`, whether
`first_chunk_time` has been set, plus the trace of calls made so far. -/
structure StreamLoopState where
  chunks : List String
  pending : List String
  actions : List CallAction
  first_chunk : Bool
  guardrail_violations : List String
deriving Repr, DecidableEq

/-- The `async for token in ...` loop of `_stream_nlp_response` (lines
315-345) over the finite token stream (a `none` token is skipped, line
316-317).  Returns the final locals, `some m` with the metadata updates
applied at the guardrail `break` (lines 322-334) or `none` when the loop
completed (so the `for ... else` block runs), and the tokens left
unconsumed by the generator. -/
def stream_loop (env : StreamEnv) (call_id channel_id : String) :
    List (Option String) → StreamLoopState →
      StreamLoopState × Option NLPMeta × List (Option String)
  | [], st => (st, none, [])
  | none :: rest, st => stream_loop env call_id channel_id rest st
  | some token :: rest, st =>
    let chunks := st.chunks ++ [token]
    let pending := st.pending ++ [token]
    let current_text := pyStrip (String.join chunks)
    let sres := env.is_response_safe current_text
    if sres.1 = false then
      -- lines 322-334: stop playback, play the fallback, set metadata, break
      let st' : StreamLoopState :=
        { chunks, pending,
          actions := st.actions ++
            [CallAction.stopActivePlayback call_id "guardrail violation",
             CallAction.playTTS channel_id GUARDRAIL_FALLBACK_MESSAGE call_id],
          first_chunk := true,
          guardrail_violations := sres.2 }
      let meta : NLPMeta :=
        { response_text := some GUARDRAIL_FALLBACK_MESSAGE,
          intent := some "handoff_to_agent",
          emotion := some "neutral",
          guardrail_violations := some sres.2,
          latency_ms := none }
      (st', some meta, rest)
    else
      -- lines 336-345: flush the pending chunk when the chunker says so
      let flush_text := pyStrip (String.join pending)
      if should_flush_stream_chunk env.cfg flush_text false then
        stream_loop env call_id channel_id rest
          { chunks, pending := [],
            actions := st.actions ++
              [CallAction.playTTS channel_id (sanitize_response flush_text) call_id],
            first_chunk := true,
            guardrail_violations := st.guardrail_violations }
      else
        stream_loop env call_id channel_id rest { st with chunks, pending }

/-- `CallHandler._stream_nlp_response` (lines 301-390): run the token
loop, then the `for ... else` completion block (lines 347-365), the
`response_text` setdefault (line 367), the final safety check (lines
368-381), the stashed-violations merge (lines 383-384) and the latency
bookkeeping (lines 386-389).  Returns the metadata, the ordered trace of
`_stop_active_playback` / `_play_tts_response` calls, and the tokens the
generator never produced because of an early `break`. -/
def stream_nlp_response (env : StreamEnv) (call_id channel_id user_text : String)
    (tokens : List (Option String)) : NLPMeta × List CallAction × List (Option String) :=
  let r := stream_loop env call_id channel_id tokens ⟨[], [], [], false, []⟩
  let st := r.1
  let p :=
    match r.2.1 with
    | some m => (m, st)
    | none =>
      -- for-else block, lines 347-365
      let meta := NLPMeta.empty.updateIfSome env.pop_last_stream_result
      let full_text := pyStrip (String.join st.chunks)
      let remaining_text := pyStrip (String.join st.pending)
      let st' : StreamLoopState :=
        if st.pending ≠ [] ∧ remaining_text ≠ "" then
          { st with
              pending := [],
              actions := st.actions ++
                [CallAction.playTTS channel_id (sanitize_response remaining_text) call_id],
              first_chunk := true }
        else { st with pending := [] }
      let meta :=
        { meta with
            response_text := (meta.response_text).orElse (fun _ => some full_text),
            intent := (meta.intent).orElse (fun _ => some "continue_conversation"),
            emotion := (meta.emotion).orElse
              (fun _ => some (env.analyze_emotion user_text)) }
      (meta, st')
  let meta1 := p.1
  let st1 := p.2
  -- line 367: metadata.setdefault("response_text", ''.join(chunks).strip())
  let meta2 :=
    { meta1 with
        response_text := (meta1.response_text).orElse
          (fun _ => some (pyStrip (String.join st1.chunks))) }
  -- lines 368-381: final safety check on metadata["response_text"] or ""
  let sres := env.is_response_safe (meta2.response_text.getD "")
  let q :=
    if sres.1 = false then
      ({ meta2 with
           response_text := some GUARDRAIL_FALLBACK_MESSAGE,
           intent := some "handoff_to_agent",
           emotion := some "neutral",
           guardrail_violations := some sres.2 },
       { st1 with
           actions := st1.actions ++
             [CallAction.stopActivePlayback call_id "guardrail violation-final",
              CallAction.playTTS channel_id GUARDRAIL_FALLBACK_MESSAGE call_id],
           first_chunk := true })
    else (meta2, st1)
  let meta3 := q.1
  let st2 := q.2
  -- lines 383-384
  let meta4 :=
    if st2.guardrail_violations ≠ [] ∧ meta3.guardrail_violations = none then
      { meta3 with guardrail_violations := some st2.guardrail_violations }
    else meta3
  -- lines 386-389: latency_ms (the measured value itself is abstracted)
  let meta5 :=
    if st2.first_chunk then { meta4 with latency_ms := some (some env.latency_value) }
    else { meta4 with latency_ms := (meta4.latency_ms).orElse (fun _ => some none) }
  (meta5, st2.actions, r.2.2)

/-! ### Conversation loop

Embedding of `CallHandler._conversation_loop`
(`src/core/call_handler.py:558-608`) as a function of the per-turn
events the loop reacts to.  The `history` list only feeds the NLP
collaborator, so it does not appear in the logged output. -/

/-- One iteration's inputs: `get_next_utterance` raised (`sttError`),
returned `None` (`sttEnd`), or returned an utterance whose
`_stream_nlp_response` call either raised (`turn u none`, the
`continue` path) or produced metadata (`turn u (some m)`). -/
inductive LoopEvent where
  | sttError
  | sttEnd
  | turn (utterance : String) (outcome : Option NLPMeta)
deriving Repr, DecidableEq

/-- One `evaluation_tracker.log_turn(...)` call (lines 597-603). -/
structure LogEntry where
  session_id : String
  turn_index : Nat
  user_text : String
  bot_text : String
deriving Repr, DecidableEq

/-- `CallHandler._conversation_loop` (lines 558-608): the sequence of
`log_turn` calls it makes on the given events, starting from turn index
`i`.  A logged turn is followed by `turn_index += 1`; the loop breaks on
STT failure, STT end-of-stream, or an `end_conversation` intent (checked
after logging). -/
def conversation_loop (call_id : String) : Nat → List LoopEvent → List LogEntry
  | _, [] => []
  | _, LoopEvent.sttError :: _ => []
  | _, LoopEvent.sttEnd :: _ => []
  | i, LoopEvent.turn _ none :: rest => conversation_loop call_id i rest
  | i, LoopEvent.turn u (some m) :: rest =>
    -- response_text = (nlp_result.get("response_text") or "").strip()
    let response_text := pyStrip (m.response_text.getD "")
    ⟨call_id, i, u, response_text⟩ ::
      (if m.intent = some "end_conversation" then []
       else conversation_loop call_id (i + 1) rest)

/-! ## Theorems -/

/-! ### RTP payload extraction (C1, C10) -/

theorem pySliceDropLast_length_of_lt {α : Type} (xs : List α) (k : Nat)
    (hk : k ≠ 0) : (pySliceDropLast xs k).length = xs.length - k := by
  simp [pySliceDropLast, hk]

/-- C1: RTP payload extraction returns an empty payload for packets
shorter than 12 bytes or with a version field other than 2 (and, being a
total function, never raises); and for a packet with CSRC count 2,
extension flag 0, padding flag 1 and a valid padding-length byte
(at least 1 and less than the residual payload length), the extracted
payload length is the total length minus the 20-byte header
(12 + 4·CSRC) minus the padding length. -/
theorem rtp_extract_payload_c1 (packet : List Nat) :
    (packet.length < 12 → extract_payload packet = []) ∧
    (packet.headD 0 / 64 ≠ 2 → extract_payload packet = []) ∧
    (packet.headD 0 / 64 = 2 → packet.headD 0 % 16 = 2 →
      packet.headD 0 / 16 % 2 = 0 → packet.headD 0 / 32 % 2 = 1 →
      1 ≤ (packet.drop 20).getLastD 0 →
      (packet.drop 20).getLastD 0 < (packet.drop 20).length →
      (extract_payload packet).length =
        packet.length - 20 - (packet.drop 20).getLastD 0) := by
  refine ⟨?_, ?_, ?_⟩
  · intro h
    simp [extract_payload, rtpHeaderLen, h]
  · intro h
    by_cases h12 : packet.length < 12
    · simp [extract_payload, rtpHeaderLen, h12]
    · have hnone : rtpHeaderLen packet = none := by
        simp only [rtpHeaderLen, if_neg h12]
        rw [if_pos h]
      simp [extract_payload, hnone]
  · intro hver hcsrc hext hpad hp1 hp2
    have hdroplen : (packet.drop 20).length = packet.length - 20 :=
      List.length_drop 20 packet
    have hlen : 22 ≤ packet.length := by omega
    have hhdr : rtpHeaderLen packet = some 20 := by
      simp only [rtpHeaderLen, hver, hcsrc, hext]
      norm_num
      omega
    have hne : packet.drop 20 ≠ [] := by
      intro h0
      rw [h0] at hp2
      simp at hp2
    simp only [extract_payload, hhdr, hpad]
    rw [if_pos trivial, if_neg hne, if_pos hp2]
    rw [pySliceDropLast_length_of_lt _ _ (by omega)]
    omega

/-- C1 witness: a 24-byte packet with first byte `0b10100010` (version 2,
padding 1, extension 0, CSRC count 2) and padding length 2 yields a
2-byte payload; a short packet and a version-1 packet yield empty
payloads. -/
theorem rtp_extract_payload_c1_witness :
    extract_payload [1, 2, 3] = [] ∧
    extract_payload (64 :: List.replicate 11 0) = [] ∧
    (extract_payload ([162] ++ List.replicate 19 0 ++ [9, 9, 9, 2])).length = 2 :=
  ⟨(rtp_extract_payload_c1 [1, 2, 3]).1 (by decide),
   (rtp_extract_payload_c1 (64 :: List.replicate 11 0)).2.1 (by decide),
   (rtp_extract_payload_c1 ([162] ++ List.replicate 19 0 ++ [9, 9, 9, 2])).2.2
     (by decide) (by decide) (by decide) (by decide) (by decide) (by decide)⟩

/-- C10: when the padding flag is set, the residual payload after the
header is non-empty, and the padding-length byte is 0, extraction
returns the empty byte string (Python `payload[:-0]` is empty): a zero
padding-length byte erases the entire payload. -/
theorem rtp_zero_padding_c10 (packet : List Nat) (hl : Nat)
    (hhdr : rtpHeaderLen packet = some hl)
    (hpad : packet.headD 0 / 32 % 2 = 1)
    (hne : packet.drop hl ≠ [])
    (hzero : (packet.drop hl).getLastD 0 = 0) :
    extract_payload packet = [] := by
  simp only [extract_payload, hhdr, hpad]
  rw [if_pos trivial, if_neg hne, hzero]
  by_cases h : 0 < (packet.drop hl).length
  · rw [if_pos h]
    simp [pySliceDropLast]
  · rw [if_neg h]

/-- C10 witness: a 14-byte packet (version 2, padding flag set, no CSRC,
no extension) whose 2-byte residual payload ends in a padding byte of 0
extracts to the empty payload. -/
theorem rtp_zero_padding_c10_witness :
    extract_payload [160, 0, 0, 0, 0, 0, 0, 0, 0, 0, 0, 0, 5, 0] = [] :=
  rtp_zero_padding_c10 [160, 0, 0, 0, 0, 0, 0, 0, 0, 0, 0, 0, 5, 0] 12
    (by decide) (by decide) (by decide) (by decide)

/-! ### Energy VAD (C2, C3) -/

theorem add_chunk_classified (v : EnergyVAD) (c : List Nat) (a : Bool)
    (h : chunkClass v.rms_threshold c = some a) :
    add_chunk v c = frameStep v a := by
  simp [add_chunk, h]

theorem frameStep_above_untriggered (θ : ℚ) (act rel n s : Nat) (hn : n + 1 < act) :
    frameStep ⟨θ, act, rel, n, s, false⟩ true = (⟨θ, act, rel, n + 1, 0, false⟩, false) := by
  simp only [frameStep]
  rw [if_neg (by simp; omega), if_neg (by simp)]
  simp

theorem frameStep_above_trigger (θ : ℚ) (act rel n s : Nat) (hn : act ≤ n + 1) :
    frameStep ⟨θ, act, rel, n, s, false⟩ true = (⟨θ, act, rel, n + 1, 0, true⟩, true) := by
  simp only [frameStep]
  rw [if_pos (by simpa using hn)]
  simp

theorem frameStep_below_triggered_stay (θ : ℚ) (act rel n s : Nat) (hs : s + 1 < rel) :
    frameStep ⟨θ, act, rel, n, s, true⟩ false = (⟨θ, act, rel, n - 1, s + 1, true⟩, false) := by
  simp only [frameStep]
  rw [if_neg (by simp), if_neg (by simp; omega)]
  simp

theorem frameStep_below_release (θ : ℚ) (act rel n s : Nat) (hs : rel ≤ s + 1) :
    frameStep ⟨θ, act, rel, n, s, true⟩ false = (⟨θ, act, rel, 0, s + 1, false⟩, false) := by
  simp only [frameStep]
  rw [if_neg (by simp), if_pos (by simpa using hs)]
  simp

/-- Three consecutive above-threshold frames from an untriggered state
with a zeroed active counter and `activation_frames = 3` raise the
counter to 3 and fire the one-shot activation edge on the third frame. -/
theorem run_three_above (θ : ℚ) (rel s : Nat) (x y z : List Nat)
    (hx : chunkClass θ x = some true) (hy : chunkClass θ y = some true)
    (hz : chunkClass θ z = some true) :
    runChunks ⟨θ, 3, rel, 0, s, false⟩ [x, y] = ⟨θ, 3, rel, 2, 0, false⟩ ∧
    add_chunk (⟨θ, 3, rel, 2, 0, false⟩ : EnergyVAD) z = (⟨θ, 3, rel, 3, 0, true⟩, true) := by
  have e1 : add_chunk (⟨θ, 3, rel, 0, s, false⟩ : EnergyVAD) x
      = (⟨θ, 3, rel, 1, 0, false⟩, false) := by
    rw [add_chunk_classified _ _ _ hx]
    exact frameStep_above_untriggered θ 3 rel 0 s (by omega)
  have e2 : add_chunk (⟨θ, 3, rel, 1, 0, false⟩ : EnergyVAD) y
      = (⟨θ, 3, rel, 2, 0, false⟩, false) := by
    rw [add_chunk_classified _ _ _ hy]
    exact frameStep_above_untriggered θ 3 rel 1 0 (by omega)
  constructor
  · simp [runChunks, e1, e2]
  · rw [add_chunk_classified _ _ _ hz]
    exact frameStep_above_trigger θ 3 rel 2 0 (by omega)

/-- A run of below-threshold frames too short to reach the release count
keeps the VAD triggered, adding its length to the silence counter and
subtracting it from the active counter. -/
theorem run_below_still_triggered (θ : ℚ) (bs : List (List Nat)) :
    ∀ k a : Nat, (∀ b ∈ bs, chunkClass θ b = some false) → k + bs.length < 10 →
    runChunks ⟨θ, 3, 10, a, k, true⟩ bs
      = ⟨θ, 3, 10, a - bs.length, k + bs.length, true⟩ := by
  induction bs with
  | nil => intro k a _ _; simp [runChunks]
  | cons b rest ih =>
    intro k a hb hlt
    have hstep : add_chunk (⟨θ, 3, 10, a, k, true⟩ : EnergyVAD) b
        = (⟨θ, 3, 10, a - 1, k + 1, true⟩, false) := by
      rw [add_chunk_classified _ _ _ (hb b (by simp))]
      exact frameStep_below_triggered_stay θ 3 10 a k (by simp at hlt; omega)
    show runChunks (add_chunk ⟨θ, 3, 10, a, k, true⟩ b).1 rest = _
    rw [hstep]
    rw [ih (k + 1) (a - 1) (fun b' hb' => hb b' (by simp [hb'])) (by simp at hlt ⊢; omega)]
    simp [EnergyVAD.mk.injEq]
    omega

/-- A run of below-threshold frames that brings the silence counter
exactly to the release count of 10 clears the triggered flag and zeroes
the active counter. -/
theorem run_below_clears (θ : ℚ) (bs : List (List Nat)) :
    ∀ k a : Nat, (∀ b ∈ bs, chunkClass θ b = some false) → k + bs.length = 10 →
    bs ≠ [] →
    runChunks ⟨θ, 3, 10, a, k, true⟩ bs = ⟨θ, 3, 10, 0, 10, false⟩ := by
  induction bs with
  | nil => intro k a _ _ hne; exact absurd rfl hne
  | cons b rest ih =>
    intro k a hb heq _
    by_cases hr : rest = []
    · subst hr
      have hk : k + 1 = 10 := by simpa using heq
      have hstep : add_chunk (⟨θ, 3, 10, a, k, true⟩ : EnergyVAD) b
          = (⟨θ, 3, 10, 0, k + 1, false⟩, false) := by
        rw [add_chunk_classified _ _ _ (hb b (by simp))]
        exact frameStep_below_release θ 3 10 a k (by omega)
      show runChunks (add_chunk ⟨θ, 3, 10, a, k, true⟩ b).1 [] = _
      rw [hstep]
      simp [runChunks, hk]
    · have hlen : 1 ≤ rest.length := by
        cases rest with
        | nil => exact absurd rfl hr
        | cons _ _ => simp
      have hstep : add_chunk (⟨θ, 3, 10, a, k, true⟩ : EnergyVAD) b
          = (⟨θ, 3, 10, a - 1, k + 1, true⟩, false) := by
        rw [add_chunk_classified _ _ _ (hb b (by simp))]
        exact frameStep_below_triggered_stay θ 3 10 a k (by simp at heq; omega)
      show runChunks (add_chunk ⟨θ, 3, 10, a, k, true⟩ b).1 rest = _
      rw [hstep]
      exact ih (k + 1) (a - 1) (fun b' hb' => hb b' (by simp [hb']))
        (by simp at heq; omega) hr

/-- C2: for the VAD configured with `activation_frames = 3` and
`release_frames = 10`, from the untriggered initial state: three
above-threshold frames fire the one-shot activation edge and set the
triggered flag; a run of fewer than 10 below-threshold frames never
clears the flag; exactly 10 consecutive below-threshold frames clear it;
and after clearing, three fresh above-threshold frames set it again,
emitting the one-shot edge on the third. -/
theorem vad_hysteresis_c2 (θ : ℚ) (a₁ a₂ a₃ : List Nat) (bs : List (List Nat))
    (c₁ c₂ c₃ : List Nat)
    (ha₁ : chunkClass θ a₁ = some true) (ha₂ : chunkClass θ a₂ = some true)
    (ha₃ : chunkClass θ a₃ = some true)
    (hbs : ∀ b ∈ bs, chunkClass θ b = some false)
    (hc₁ : chunkClass θ c₁ = some true) (hc₂ : chunkClass θ c₂ = some true)
    (hc₃ : chunkClass θ c₃ = some true) :
    (add_chunk (runChunks (EnergyVAD.init θ 3 10) [a₁, a₂]) a₃).2 = true ∧
    (runChunks (EnergyVAD.init θ 3 10) [a₁, a₂, a₃]).triggered = true ∧
    (bs.length < 10 →
      (runChunks (runChunks (EnergyVAD.init θ 3 10) [a₁, a₂, a₃]) bs).triggered = true) ∧
    (bs.length = 10 →
      (runChunks (runChunks (EnergyVAD.init θ 3 10) [a₁, a₂, a₃]) bs).triggered = false) ∧
    (bs.length = 10 →
      (add_chunk (runChunks (runChunks (runChunks (EnergyVAD.init θ 3 10) [a₁, a₂, a₃]) bs)
          [c₁, c₂]) c₃).2 = true ∧
      (runChunks (runChunks (runChunks (EnergyVAD.init θ 3 10) [a₁, a₂, a₃]) bs)
          [c₁, c₂, c₃]).triggered = true) := by
  obtain ⟨h12, h3⟩ := run_three_above θ 10 10 a₁ a₂ a₃ ha₁ ha₂ ha₃
  have hinit : EnergyVAD.init θ 3 10 = ⟨θ, 3, 10, 0, 10, false⟩ := rfl
  have hrun3 : runChunks (EnergyVAD.init θ 3 10) [a₁, a₂, a₃] = ⟨θ, 3, 10, 3, 0, true⟩ := by
    have hstep : runChunks (EnergyVAD.init θ 3 10) [a₁, a₂, a₃]
        = (add_chunk (runChunks (EnergyVAD.init θ 3 10) [a₁, a₂]) a₃).1 := rfl
    rw [hstep, hinit, h12, h3]
  refine ⟨?_, ?_, ?_, ?_, ?_⟩
  · rw [hinit, h12, h3]
  · rw [hrun3]
  · intro hlen
    rw [hrun3, run_below_still_triggered θ bs 0 3 hbs (by omega)]
  · intro hlen
    rw [hrun3, run_below_clears θ bs 0 3 hbs (by omega)
      (by intro h0; rw [h0] at hlen; simp at hlen)]
  · intro hlen
    have hclear : runChunks (runChunks (EnergyVAD.init θ 3 10) [a₁, a₂, a₃]) bs
        = ⟨θ, 3, 10, 0, 10, false⟩ := by
      rw [hrun3, run_below_clears θ bs 0 3 hbs (by omega)
        (by intro h0; rw [h0] at hlen; simp at hlen)]
    obtain ⟨h12c, h3c⟩ := run_three_above θ 10 10 c₁ c₂ c₃ hc₁ hc₂ hc₃
    constructor
    · rw [hclear, h12c, h3c]
    · have hstep : runChunks (⟨θ, 3, 10, 0, 10, false⟩ : EnergyVAD) [c₁, c₂, c₃]
          = (add_chunk (runChunks (⟨θ, 3, 10, 0, 10, false⟩ : EnergyVAD) [c₁, c₂]) c₃).1 :=
        rfl
      rw [hclear, hstep, h12c, h3c]

/-- C2 witness: threshold 700, above-threshold chunks `[0, 4]` (one
sample of 1024) and below-threshold chunks `[0, 0]`, with a release run
of exactly 10 silent chunks. -/
theorem vad_hysteresis_c2_witness :
    (add_chunk (runChunks (EnergyVAD.init 700 3 10) [[0, 4], [0, 4]]) [0, 4]).2 = true ∧
    (runChunks (EnergyVAD.init 700 3 10) [[0, 4], [0, 4], [0, 4]]).triggered = true ∧
    ((List.replicate 10 [0, 0]).length < 10 →
      (runChunks (runChunks (EnergyVAD.init 700 3 10) [[0, 4], [0, 4], [0, 4]])
        (List.replicate 10 [0, 0])).triggered = true) ∧
    ((List.replicate 10 [0, 0]).length = 10 →
      (runChunks (runChunks (EnergyVAD.init 700 3 10) [[0, 4], [0, 4], [0, 4]])
        (List.replicate 10 [0, 0])).triggered = false) ∧
    ((List.replicate 10 [0, 0]).length = 10 →
      (add_chunk (runChunks (runChunks (runChunks (EnergyVAD.init 700 3 10)
          [[0, 4], [0, 4], [0, 4]]) (List.replicate 10 [0, 0])) [[0, 4], [0, 4]]) [0, 4]).2
        = true ∧
      (runChunks (runChunks (runChunks (EnergyVAD.init 700 3 10) [[0, 4], [0, 4], [0, 4]])
          (List.replicate 10 [0, 0])) [[0, 4], [0, 4], [0, 4]]).triggered = true) :=
  vad_hysteresis_c2 700 [0, 4] [0, 4] [0, 4] (List.replicate 10 [0, 0]) [0, 4] [0, 4] [0, 4]
    (by decide) (by decide) (by decide) (by decide) (by decide) (by decide) (by decide)

/-- C3 counterexample: with threshold 700, activation 3, release 10, the
frame sequence loud, loud, silent, loud, loud fires the activation edge
on its fifth frame even though the three most recent frames are not all
above threshold (the middle chunk `[0, 0]` classifies below threshold):
a below-threshold frame only decrements the progress counter. -/
theorem vad_activation_counter_c3_counterexample :
    (add_chunk (runChunks (EnergyVAD.init 700 3 10) [[0, 4], [0, 4], [0, 0], [0, 4]])
      [0, 4]).2 = true ∧
    chunkClass 700 [0, 0] = some false ∧
    chunkClass 700 [0, 4] = some true := by decide

/-- C3 amended: from an untriggered state whose active counter is below
the activation count, a below-threshold frame decrements the
consecutive-above counter by one (floored at zero) instead of resetting
it and never fires the edge, while an above-threshold frame increments
the counter and fires the one-shot activation edge exactly when the
incremented counter reaches the activation count. -/
theorem vad_activation_counter_c3 (v : EnergyVAD) (c : List Nat)
    (htrig : v.triggered = false) (hlt : v.active_frames < v.activation_frames) :
    (chunkClass v.rms_threshold c = some false →
      add_chunk v c =
        ({ v with active_frames := v.active_frames - 1,
                  silence_frames := v.silence_frames + 1 }, false)) ∧
    (chunkClass v.rms_threshold c = some true →
      add_chunk v c =
        (if v.activation_frames ≤ v.active_frames + 1 then
          ({ v with active_frames := v.active_frames + 1, silence_frames := 0,
                    triggered := true }, true)
         else
          ({ v with active_frames := v.active_frames + 1, silence_frames := 0 }, false))) := by
  obtain ⟨θ, act, rel, n, s, trig⟩ := v
  simp only at htrig hlt
  subst htrig
  constructor
  · intro hcls
    rw [add_chunk_classified _ _ _ hcls]
    simp only [frameStep]
    rw [if_neg (by simp; omega), if_neg (by simp)]
    simp
  · intro hcls
    rw [add_chunk_classified _ _ _ hcls]
    by_cases hend : act ≤ n + 1
    · rw [if_pos (by simpa using hend)]
      exact frameStep_above_trigger θ act rel n s hend
    · rw [if_neg (by simpa using hend)]
      exact frameStep_above_untriggered θ act rel n s (by omega)

/-- C3 amended witness: at threshold 700 from the initial state, a silent
chunk decrements the (zero) counter and leaves everything untriggered,
and from a state with counter 2 a loud chunk raises it to 3 and fires
the edge. -/
theorem vad_activation_counter_c3_witness :
    add_chunk (EnergyVAD.init 700 3 10) [0, 0]
      = (⟨700, 3, 10, 0, 11, false⟩, false) ∧
    add_chunk (⟨700, 3, 10, 2, 0, false⟩ : EnergyVAD) [0, 4]
      = (⟨700, 3, 10, 3, 0, true⟩, true) := by
  constructor
  · exact (vad_activation_counter_c3 (EnergyVAD.init 700 3 10) [0, 0]
      rfl (by decide)).1 (by decide)
  · have h := (vad_activation_counter_c3 (⟨700, 3, 10, 2, 0, false⟩ : EnergyVAD) [0, 4]
      rfl (by decide)).2 (by decide)
    simpa using h

/-! ### Conversation loop turn indices (C5) -/

theorem conversation_loop_indices (call_id : String) (events : List LoopEvent) :
    ∀ i : Nat, (conversation_loop call_id i events).map LogEntry.turn_index
      = List.range' i (conversation_loop call_id i events).length := by
  induction events with
  | nil => intro i; simp [conversation_loop]
  | cons e rest ih =>
    intro i
    cases e with
    | sttError => simp [conversation_loop]
    | sttEnd => simp [conversation_loop]
    | turn u o =>
      cases o with
      | none => simpa only [conversation_loop] using ih i
      | some m =>
        by_cases hint : m.intent = some "end_conversation"
        · simp [conversation_loop, hint, List.range']
        · simp only [conversation_loop, if_neg hint, List.map_cons, List.length_cons,
            List.range'_succ]
          exact congrArg (List.cons i) (ih (i + 1))

/-- C5: within one call the turn indices passed to
`evaluation_tracker.log_turn` are exactly `0, 1, ..., N-1` for the `N`
logged turns: gapless, strictly increasing, starting at 0, with each
logged turn incrementing the index by exactly one — whatever sequence of
utterances, streaming failures and end intents the call sees. -/
theorem turn_indices_gapless_c5 (call_id : String) (events : List LoopEvent) :
    (conversation_loop call_id 0 events).map LogEntry.turn_index
      = List.range (conversation_loop call_id 0 events).length := by
  rw [List.range_eq_range']
  exact conversation_loop_indices call_id events 0

/-! ### Response stream chunker (C6) -/

/-- C6: for the chunker configured with `min = 5`, `max = 10` and flush
punctuation `"."`: `"hi"` does not flush while the stream is live;
`"hello wrld"` (length 10) flushes; `"bye."` (length 4, below the
minimum) flushes because it ends in the punctuation; and `"ok"` flushes
once the stream has ended. -/
theorem chunker_flush_cases_c6 :
    should_flush_stream_chunk ⟨5, 10, "."⟩ "hi" false = false ∧
    should_flush_stream_chunk ⟨5, 10, "."⟩ "hello wrld" false = true ∧
    should_flush_stream_chunk ⟨5, 10, "."⟩ "bye." false = true ∧
    should_flush_stream_chunk ⟨5, 10, "."⟩ "ok" true = true := by decide

/-! ### STT utterance queue (C8) -/

/-- C8: `get_next_utterance` returns the transcript of the first queued
result that is final with a non-empty transcript, skipping every earlier
result that is non-final or empty (and not a stream-end marker), and
returns `None` when a stream-end marker arrives before any such
result. -/
theorem stt_next_utterance_c8 (skipped : List STTResult) (r : STTResult)
    (rest : List STTResult)
    (hskip : ∀ s ∈ skipped,
      ¬(s.is_final = true ∧ s.transcript ≠ "") ∧ s.ty ≠ some "stream_end") :
    (r.is_final = true ∧ r.transcript ≠ "" →
      get_next_utterance (skipped ++ r :: rest) = some (some r.transcript)) ∧
    (r.ty = some "stream_end" → ¬(r.is_final = true ∧ r.transcript ≠ "") →
      get_next_utterance (skipped ++ r :: rest) = some none) := by
  induction skipped with
  | nil =>
    constructor
    · intro h
      simp only [List.nil_append, get_next_utterance]
      rw [if_pos h]
    · intro ht hnf
      simp only [List.nil_append, get_next_utterance]
      rw [if_neg hnf, if_pos ht]
  | cons s ss ih =>
    have hs := hskip s (by simp)
    have ih' := ih (fun x hx => hskip x (by simp [hx]))
    constructor
    · intro h
      simp only [List.cons_append, get_next_utterance]
      rw [if_neg hs.1, if_neg hs.2]
      exact ih'.1 h
    · intro ht hnf
      simp only [List.cons_append, get_next_utterance]
      rw [if_neg hs.1, if_neg hs.2]
      exact ih'.2 ht hnf

/-- C8 witness: a non-final partial and an empty final result are
skipped; the first final non-empty transcript is returned. -/
theorem stt_next_utterance_c8_witness :
    get_next_utterance
      [⟨"xin", false, none⟩, ⟨"", true, none⟩, ⟨"xin chao", true, none⟩]
      = some (some "xin chao") :=
  (stt_next_utterance_c8 [⟨"xin", false, none⟩, ⟨"", true, none⟩]
    ⟨"xin chao", true, none⟩ [] (by decide)).1 (by decide)

/-! ### Playback stop idempotence (C9) -/

/-- C9: stopping all playback for an owner with no recorded active
playbacks is a no-op: no stop command and no monitor cancellation is
issued, the playback-tracking state is unchanged (and the embedding is a
total function, so nothing is raised), and a repeated invocation behaves
identically. -/
theorem stop_all_noop_c9 (st : PlaybackState) (owner : String)
    (h : st.active_playbacks.find? (fun p => p.1 = owner) = none) :
    stop_active_playback st owner = (st, []) ∧
    stop_active_playback (stop_active_playback st owner).1 owner = (st, []) := by
  have hlook : lookupOwner st.active_playbacks owner = [] := by
    simp [lookupOwner, h]
  have hpop : popOwner st.active_playbacks owner = st.active_playbacks := by
    rw [popOwner, List.filter_eq_self]
    intro a ha
    have := List.find?_eq_none.mp h a ha
    simpa using this
  have h1 : stop_active_playback st owner = (st, []) := by
    simp [stop_active_playback, hlook, hpop]
  refine ⟨h1, ?_⟩
  rw [h1]
  exact h1

/-- C9 witness: an owner absent from a tracking state that still holds
another owner's playback. -/
theorem stop_all_noop_c9_witness :
    stop_active_playback ⟨[("other", ["pb1"])], ["pb1"]⟩ "gone"
      = (⟨[("other", ["pb1"])], ["pb1"]⟩, []) ∧
    stop_active_playback
      (stop_active_playback ⟨[("other", ["pb1"])], ["pb1"]⟩ "gone").1 "gone"
      = (⟨[("other", ["pb1"])], ["pb1"]⟩, []) :=
  stop_all_noop_c9 ⟨[("other", ["pb1"])], ["pb1"]⟩ "gone" (by decide)

/-! ### Guardrail violation during streaming (C7) -/

theorem someOrElse {α : Type} (a : α) (f : Unit → Option α) :
    (some a).orElse f = some a := rfl

/-- Whenever the token loop of `_stream_nlp_response` exits through the
guardrail `break`, the metadata it produced carries the fallback message
and the handoff intent, the recorded call trace ends with the stop-all
followed by the fallback playback, and the token stream was abandoned at
the breaking token. -/
theorem stream_loop_break (env : StreamEnv) (call_id channel_id : String)
    (tokens : List (Option String)) :
    ∀ (st0 st : StreamLoopState) (m : NLPMeta) (rem : List (Option String)),
    stream_loop env call_id channel_id tokens st0 = (st, some m, rem) →
    m.response_text = some GUARDRAIL_FALLBACK_MESSAGE ∧
    m.intent = some "handoff_to_agent" ∧
    m.latency_ms = none ∧
    (∃ pre, st.actions = pre ++
      [CallAction.stopActivePlayback call_id "guardrail violation",
       CallAction.playTTS channel_id GUARDRAIL_FALLBACK_MESSAGE call_id]) ∧
    (∃ used, tokens = used ++ rem) := by
  induction tokens with
  | nil =>
    intro st0 st m rem h
    simp [stream_loop] at h
  | cons t rest ih =>
    intro st0 st m rem h
    cases t with
    | none =>
      simp only [stream_loop] at h
      obtain ⟨h1, h2, h3, h4, used, hu⟩ := ih _ _ _ _ h
      exact ⟨h1, h2, h3, h4, none :: used, by simp [hu]⟩
    | some tok =>
      simp only [stream_loop] at h
      split at h
      · simp only [Prod.mk.injEq, Option.some.injEq] at h
        obtain ⟨hst, hm, hrem⟩ := h
        subst hst
        subst hrem
        exact ⟨by rw [← hm], by rw [← hm], by rw [← hm], ⟨st0.actions, rfl⟩,
          ⟨[some tok], rfl⟩⟩
      · split at h
        · obtain ⟨h1, h2, h3, h4, used, hu⟩ := ih _ _ _ _ h
          exact ⟨h1, h2, h3, h4, some tok :: used, by simp [hu]⟩
        · obtain ⟨h1, h2, h3, h4, used, hu⟩ := ih _ _ _ _ h
          exact ⟨h1, h2, h3, h4, some tok :: used, by simp [hu]⟩

/-- C7: whenever the safety policy rejects the accumulated reply during
response streaming (the token loop exits through the guardrail break),
the returned turn metadata carries the fixed fallback message as
response text and the handoff intent tag, the recorded call trace
contains a stop-all-playback for the call immediately followed by the
fallback playback, token consumption ends early (the unconsumed suffix
of the stream is abandoned), and the conversation loop does not end the
call on this turn: it logs the turn and proceeds to the next listen turn
because the handoff intent is not the end-conversation intent. -/
theorem guardrail_violation_c7 (env : StreamEnv) (call_id channel_id user_text : String)
    (tokens : List (Option String)) (st : StreamLoopState) (m : NLPMeta)
    (rem : List (Option String))
    (hbrk : stream_loop env call_id channel_id tokens ⟨[], [], [], false, []⟩
      = (st, some m, rem)) :
    (stream_nlp_response env call_id channel_id user_text tokens).1.response_text
      = some GUARDRAIL_FALLBACK_MESSAGE ∧
    (stream_nlp_response env call_id channel_id user_text tokens).1.intent
      = some "handoff_to_agent" ∧
    (∃ pre post, (stream_nlp_response env call_id channel_id user_text tokens).2.1
      = pre ++ (CallAction.stopActivePlayback call_id "guardrail violation" ::
          CallAction.playTTS channel_id GUARDRAIL_FALLBACK_MESSAGE call_id :: post)) ∧
    (stream_nlp_response env call_id channel_id user_text tokens).2.2 = rem ∧
    (∃ used, tokens = used ++ rem) ∧
    (∀ (i : Nat) (evts : List LoopEvent),
      conversation_loop call_id i
        (LoopEvent.turn user_text
          (some (stream_nlp_response env call_id channel_id user_text tokens).1) :: evts)
        = ⟨call_id, i, user_text, pyStrip GUARDRAIL_FALLBACK_MESSAGE⟩ ::
            conversation_loop call_id (i + 1) evts) := by
  obtain ⟨hmr, hmi, hml, ⟨pre, hacts⟩, hused⟩ :=
    stream_loop_break env call_id channel_id tokens _ _ _ _ hbrk
  obtain ⟨mrt, mi, me, mg, ml⟩ := m
  simp only at hmr hmi hml
  subst hmr
  subst hmi
  subst hml
  have hmeta : (stream_nlp_response env call_id channel_id user_text tokens).1.response_text
      = some GUARDRAIL_FALLBACK_MESSAGE ∧
      (stream_nlp_response env call_id channel_id user_text tokens).1.intent
        = some "handoff_to_agent" := by
    simp only [stream_nlp_response, hbrk, someOrElse]
    split_ifs <;> simp
  refine ⟨hmeta.1, hmeta.2, ?_, ?_, hused, ?_⟩
  · simp only [stream_nlp_response, hbrk, someOrElse]
    split_ifs
    · exact ⟨pre, [CallAction.stopActivePlayback call_id "guardrail violation-final",
        CallAction.playTTS channel_id GUARDRAIL_FALLBACK_MESSAGE call_id],
        by rw [hacts]; simp⟩
    · exact ⟨pre, [], by rw [hacts]⟩
  · simp only [stream_nlp_response, hbrk]
  · intro i evts
    simp only [conversation_loop, hmeta.2, hmeta.1]
    rw [if_neg (by decide)]
    simp

/-- C7 witness: a policy that rejects everything, a two-token stream
breaking on the first token `"bom"`: the fallback metadata, the
stop-then-fallback trace, the abandoned second token, and the continuing
conversation loop, all at concrete inputs. -/
theorem guardrail_violation_c7_witness :
    let env : StreamEnv :=
      ⟨fun _ => (false, ["kw"]), none, fun _ => "neutral", 0, ⟨5, 10, "."⟩⟩
    (stream_nlp_response env "c1" "ch1" "hi" [some "bom", some "x"]).1.response_text
      = some GUARDRAIL_FALLBACK_MESSAGE ∧
    (stream_nlp_response env "c1" "ch1" "hi" [some "bom", some "x"]).1.intent
      = some "handoff_to_agent" ∧
    (∃ pre post, (stream_nlp_response env "c1" "ch1" "hi" [some "bom", some "x"]).2.1
      = pre ++ (CallAction.stopActivePlayback "c1" "guardrail violation" ::
          CallAction.playTTS "ch1" GUARDRAIL_FALLBACK_MESSAGE "c1" :: post)) ∧
    (stream_nlp_response env "c1" "ch1" "hi" [some "bom", some "x"]).2.2 = [some "x"] ∧
    (∃ used, [some "bom", some "x"] = used ++ [some "x"]) ∧
    (∀ (i : Nat) (evts : List LoopEvent),
      conversation_loop "c1" i
        (LoopEvent.turn "hi"
          (some (stream_nlp_response env "c1" "ch1" "hi" [some "bom", some "x"]).1) :: evts)
        = ⟨"c1", i, "hi", pyStrip GUARDRAIL_FALLBACK_MESSAGE⟩ ::
            conversation_loop "c1" (i + 1) evts) := by
  intro env
  exact guardrail_violation_c7 env "c1" "ch1" "hi" [some "bom", some "x"]
    ⟨["bom"], ["bom"],
      [CallAction.stopActivePlayback "c1" "guardrail violation",
       CallAction.playTTS "ch1" GUARDRAIL_FALLBACK_MESSAGE "c1"], true, ["kw"]⟩
    ⟨some GUARDRAIL_FALLBACK_MESSAGE, some "handoff_to_agent", some "neutral",
      some ["kw"], none⟩
    [some "x"] (by decide)
